import Mathlib

/-!
Shallow embedding of the discordeno gateway shard (`DiscordenoShard`,
`src/unnamed/part_002`).  Pure state is modelled by the `Shard` structure;
side effects (socket writes, event callbacks, spawned async calls, timers)
are modelled as an emitted `Action` list.  Awaited sub-calls such as
`identify()` / `resume()` appear as `callIdentify` / `callResume` actions,
since their bodies run on the same single-threaded executor.
-/

namespace Discordeno

/-- Shard states, from `ShardState` in `types.ts` (values referenced
throughout `src/unnamed/part_002`). -/
inductive ShardState
  | Offline
  | Connecting
  | Unidentified
  | Identifying
  | Connected
  | Resuming
  | Disconnected
  deriving DecidableEq, Repr

/-- Modelled from the spec: the numeric values of `ShardSocketCloseCodes`
and `GatewayCloseEventCodes` live in `types.ts`, which is not under `src/`;
only their names appear in the shard source and in the spec (§4.4).  We
model close codes as an inductive type with one constructor per named code
plus `other` for any unnamed numeric code, relying only on the codes being
pairwise distinct. -/
inductive CloseCode
  | TestingFinished
  | Shutdown
  | ReIdentifying
  | Resharded
  | ResumeClosingOldConnection
  | ZombiedConnection
  | UnknownOpcode
  | NotAuthenticated
  | InvalidSeq
  | RateLimited
  | SessionTimedOut
  | AuthenticationFailed
  | InvalidShard
  | ShardingRequired
  | InvalidApiVersion
  | InvalidIntents
  | DisallowedIntents
  | UnknownError
  | DecodeError
  | AlreadyAuthenticated
  | other (code : Nat)
  deriving DecidableEq, Repr

/-- Gateway opcodes, from `GatewayOpcodes` as used in `src/unnamed/part_002`. -/
inductive Opcode
  | Dispatch
  | Heartbeat
  | Identify
  | PresenceUpdate
  | VoiceStateUpdate
  | Resume
  | Reconnect
  | RequestGuildMembers
  | InvalidSession
  | Hello
  | HeartbeatACK
  deriving DecidableEq, Repr

/-- The `d` field of an incoming gateway payload; the source casts it
per-opcode (`packet.d as DiscordHello`, `as boolean`, `as DiscordReady`). -/
inductive PayloadData
  | nulld
  | hello (heartbeat_interval : Nat)
  | invalidSession (resumable : Bool)
  | ready (session_id : String) (resume_gateway_url : String)
  | otherd
  deriving DecidableEq, Repr

/-- `(packet.d as DiscordHello).heartbeat_interval`. -/
def PayloadData.helloInterval : PayloadData → Nat
  | .hello i => i
  | _ => 0

/-- `packet.d as boolean` in the InvalidSession branch. -/
def PayloadData.resumableFlag : PayloadData → Bool
  | .invalidSession b => b
  | _ => false

/-- `(packet.d as DiscordReady).session_id`. -/
def PayloadData.readySessionId : PayloadData → String
  | .ready sid _ => sid
  | _ => ""

/-- `(packet.d as DiscordReady).resume_gateway_url`. -/
def PayloadData.readyResumeUrl : PayloadData → String
  | .ready _ url => url
  | _ => ""

/-- Incoming gateway packet `{ op, d, s, t }` (`DiscordGatewayPayload`). -/
structure GatewayPayload where
  op : Opcode
  d : PayloadData := .nulld
  s : Option Int := none
  t : Option String := none
  deriving DecidableEq, Repr

/-- Outbound payloads produced by the shard (§6 of the spec). -/
inductive OutPayload
  | heartbeat (seq : Option Int)
  | identify (token : String)
  | resume (token : String) (session_id : String) (seq : Int)
  | requestGuildMembers (guild_id : String) (query : Option String) (limit : Nat)
      (presences : Bool) (user_ids : Option (List String)) (nonce : String)
  | presenceUpdate
  | voiceStateUpdate
  deriving DecidableEq, Repr

/-- Event callbacks in `ShardEvents`. -/
inductive ShardEvent
  | connecting
  | connected
  | identifying
  | identified
  | disconnected
  | hello
  | heartbeat
  | heartbeatAck
  | requestedReconnect
  | invalidSession (resumable : Bool)
  | resumed
  | message
  deriving DecidableEq, Repr

/-- Keys of the `resolves` map. -/
inductive ResolveKey
  | READY
  | RESUMED
  | INVALID_SESSION
  deriving DecidableEq, Repr

/-- Observable side effects of a shard step. -/
inductive Action
  | socketSend (p : OutPayload)
  | sendMessage (p : OutPayload) (highPriority : Bool)
  | emit (e : ShardEvent)
  | callResume
  | callIdentify
  | callConnect
  | delayMs (ms : Nat)
  | resolveWaiter (k : ResolveKey)
  | invokeOfflineResolver (r : Nat)
  | closeSocket (code : CloseCode) (reason : String)
  | logError
  deriving DecidableEq, Repr

/-- `ShardHeart`: heartbeat bookkeeping. -/
structure Heart where
  acknowledged : Bool := false
  interval : Nat := 45000
  lastBeat : Option Nat := none
  lastAck : Option Nat := none
  rtt : Option Nat := none
  timeoutPending : Bool := false
  intervalRunning : Bool := false
  scheduledJitter : Option ℤ := none
  deriving DecidableEq, Repr

/-- Pending one-shot resolvers in the `resolves` map (presence only). -/
structure Resolves where
  ready : Bool := false
  resumed : Bool := false
  invalidSession : Bool := false
  deriving DecidableEq, Repr

/-- The `DiscordenoShard` mutable state relevant to the verified claims.
`offlineSendQueue` stores resolver identifiers; `socketOpen` models
`isOpen()` (readyState = OPEN); `bucketWaiting` the bucket waiter ids. -/
structure Shard where
  id : Nat := 0
  token : String := ""
  intents : Nat := 0
  state : ShardState := .Offline
  sessionId : Option String := none
  resumeGatewayUrl : String := ""
  previousSequenceNumber : Option Int := none
  heart : Heart := {}
  socketOpen : Bool := false
  offlineSendQueue : List Nat := []
  resolves : Resolves := {}
  bucketWaiting : List Nat := []
  bucketMax : Nat := 120
  maxRequestsPerRateLimitTick : Nat := 120
  rateLimitResetInterval : Nat := 60000
  requestMembersCacheEnabled : Bool := false
  pendingMemberNonces : List String := []
  deriving DecidableEq, Repr

/-- `calculateSafeRequests()`: `max − ceil(resetInterval / heart.interval) × 2`,
clamped to be non-negative (`safeRequests < 0 ? 0 : safeRequests`). -/
def Shard.calculateSafeRequests (s : Shard) : Nat :=
  if s.heart.interval = 0 then 0
  else s.maxRequestsPerRateLimitTick -
    ((s.rateLimitResetInterval + s.heart.interval - 1) / s.heart.interval) * 2

/-- `close(code, reason)`: no-op unless the socket is currently open. -/
def Shard.closeSocketStep (s : Shard) (code : CloseCode) (reason : String) :
    Shard × List Action :=
  if s.socketOpen then (s, [Action.closeSocket code reason]) else (s, [])

/-- Outcome of `handleClose`: normal return, a spawned `identify()` or
`resume()`, or a thrown error. -/
inductive CloseOutcome
  | ret
  | identify
  | resume
  | threw (msg : String)
  deriving DecidableEq, Repr

/-- Result of `handleClose`: updated shard, whether the `disconnected`
event callback fired, and the control-flow outcome. -/
structure CloseResult where
  shard : Shard
  disconnectedEmitted : Bool
  outcome : CloseOutcome
  deriving Repr

/-- `stopHeartbeating()`: clears the interval and jitter timers. -/
def Shard.stopHeartbeating (s : Shard) : Shard :=
  { s with heart := { s.heart with timeoutPending := false, intervalRunning := false } }

/-- `handleClose(close)`: stop heartbeating, then classify `close.code`
(switch of `src/unnamed/part_002`, lines 286-339). -/
def Shard.handleClose (s : Shard) (code : CloseCode) (reason : String) : CloseResult :=
  let s0 := s.stopHeartbeating
  match code with
  | .TestingFinished =>
      ⟨{ s0 with state := .Offline }, true, .ret⟩
  | .Shutdown | .ReIdentifying | .Resharded
  | .ResumeClosingOldConnection | .ZombiedConnection =>
      ⟨{ s0 with state := .Disconnected }, true, .ret⟩
  | .UnknownOpcode | .NotAuthenticated | .InvalidSeq
  | .RateLimited | .SessionTimedOut =>
      ⟨{ s0 with state := .Identifying }, true, .identify⟩
  | .AuthenticationFailed | .InvalidShard | .ShardingRequired
  | .InvalidApiVersion | .InvalidIntents | .DisallowedIntents =>
      ⟨{ s0 with state := .Offline }, true,
        .threw (if reason = "" then "Discord gave no reason! GG! You broke Discord!" else reason)⟩
  | _ =>
      ⟨{ s0 with state := .Resuming }, true, .resume⟩

/-- JS truthiness of a stored timestamp (`this.heart.lastBeat` is a number;
`0` is falsy, absent is falsy). -/
def truthyTime : Option Nat → Bool
  | some t => t != 0
  | none => false

/-- Lines 344-351 (edge case `#2311`): on any incoming packet, record
`lastAck = now`, compute the round-trip time when a beat is outstanding,
and set `acknowledged = true`. -/
def Shard.packetPrelude (s : Shard) (now : Nat) : Shard :=
  let h := s.heart
  let rtt' := if truthyTime h.lastBeat && !h.acknowledged
              then some (now - h.lastBeat.getD 0) else h.rtt
  { s with heart := { h with lastAck := some now, rtt := rtt', acknowledged := true } }

/-- Line 523: `Math.ceil(this.heart.interval * (Math.random() || 0.5))`.
`r` stands for the `Math.random()` sample; `r || 0.5` replaces `0` (the
only falsy sample) by `0.5`. -/
def jitterDelay (interval : Nat) (r : ℚ) : ℤ :=
  ⌈(interval : ℚ) * (if r = 0 then (1 : ℚ) / 2 else r)⌉

/-- Line 415: `Math.floor((Math.random() * 4 + 1) * 1000)`. -/
def invalidSessionDelay (r : ℚ) : ℕ :=
  (⌊(r * 4 + 1) * 1000⌋ : ℤ).toNat

/-- `startHeartbeating(interval)` synchronous state effect (lines 508-523):
record the interval, leave `Disconnected`/`Offline` for `Unidentified`, and
schedule the jittered one-shot timer at delay `jitterDelay interval rand`. -/
def Shard.startHeartbeating (s : Shard) (rand : ℚ) (interval : Nat) : Shard :=
  let s1 := { s with heart := { s.heart with interval := interval } }
  let s2 := if s1.state = .Disconnected ∨ s1.state = .Offline
            then { s1 with state := .Unidentified } else s1
  let h2 := { s2.heart with
    timeoutPending := true
    scheduledJitter := some (jitterDelay interval rand) }
  { s2 with heart := h2 }

/-- The jittered one-shot timer body (lines 524-537): abort when the socket
is not open; otherwise transmit a heartbeat with the current sequence
number, record `lastBeat`, clear `acknowledged`, and start the steady
interval. -/
def Shard.jitterTimerFire (s : Shard) (now : Nat) : Shard × List Action :=
  if !s.socketOpen then (s, [])
  else
    let h := { s.heart with
      lastBeat := some now
      acknowledged := false
      timeoutPending := false
      intervalRunning := true }
    ({ s with heart := h }, [Action.socketSend (.heartbeat s.previousSequenceNumber)])

/-- One steady heartbeat tick (lines 539-568): skip when not open; declare
a zombied connection when the previous beat was never acknowledged (close
and re-identify); otherwise clear `acknowledged` and send a heartbeat. -/
def Shard.steadyHeartbeatTick (s : Shard) (now : Nat) : Shard × List Action :=
  if !s.socketOpen then (s, [])
  else if !s.heart.acknowledged then
    let r := s.closeSocketStep .ZombiedConnection
      "Zombied connection, did not receive an heartbeat ACK in time."
    (r.1, r.2 ++ [Action.callIdentify])
  else
    ({ s with heart := { s.heart with acknowledged := false, lastBeat := some now } },
     [Action.socketSend (.heartbeat s.previousSequenceNumber), Action.emit .heartbeat])

/-- Lines 434-472: the dispatch-event tail of `handleDiscordPacket` —
`RESUMED`/`READY` handling, the sequence-number update, and the final
`message` event. -/
def Shard.dispatchTail (s : Shard) (p : GatewayPayload) (acts : List Action) :
    Shard × List Action :=
  let r : Shard × List Action :=
    if p.t = some "RESUMED" then
      ({ s with state := .Connected, resolves := { s.resolves with resumed := false } },
       acts ++ [Action.emit .resumed]
            ++ s.offlineSendQueue.map Action.invokeOfflineResolver
            ++ (if s.resolves.resumed then [Action.resolveWaiter .RESUMED] else []))
    else if p.t = some "READY" then
      ({ s with resumeGatewayUrl := p.d.readyResumeUrl,
                sessionId := some p.d.readySessionId,
                state := .Connected,
                resolves := { s.resolves with ready := false } },
       acts ++ s.offlineSendQueue.map Action.invokeOfflineResolver
            ++ (if s.resolves.ready then [Action.resolveWaiter .READY] else []))
    else (s, acts)
  let s2 := if p.s ≠ none then { r.1 with previousSequenceNumber := p.s } else r.1
  (s2, r.2 ++ [Action.emit .message])

/-- `handleDiscordPacket(packet)` (lines 343-473).  `now` models
`Date.now()`, `rand` the `Math.random()` sample for the branch that
consumes one. -/
def Shard.handleDiscordPacket (s : Shard) (now : Nat) (rand : ℚ) (p : GatewayPayload) :
    Shard × List Action :=
  let s0 := s.packetPrelude now
  match p.op with
  | .Heartbeat =>
      -- `if (!this.isOpen()) return` — leaves the whole handler early.
      if !s0.socketOpen then (s0, [])
      else
        let s1 := { s0 with heart := { s0.heart with lastBeat := some now } }
        s1.dispatchTail p
          [Action.socketSend (.heartbeat s1.previousSequenceNumber), Action.emit .heartbeat]
  | .Hello =>
      let s1 := s0.startHeartbeating rand p.d.helloInterval
      let s2 := if s1.state ≠ .Resuming
                then { s1 with bucketMax := s1.calculateSafeRequests }
                else s1
      s2.dispatchTail p [Action.emit .hello]
  | .HeartbeatACK => s0.dispatchTail p [Action.emit .heartbeatAck]
  | .Reconnect => s0.dispatchTail p [Action.emit .requestedReconnect, Action.callResume]
  | .InvalidSession =>
      let resumable := p.d.resumableFlag
      let acts := [Action.emit (.invalidSession resumable),
                   Action.delayMs (invalidSessionDelay rand)]
                  ++ (if s0.resolves.invalidSession then [Action.resolveWaiter .INVALID_SESSION] else [])
                  ++ [if resumable then Action.callResume else Action.callIdentify]
      ({ s0 with resolves := { s0.resolves with invalidSession := false } }).dispatchTail p acts
  | _ => s0.dispatchTail p []

/-- `checkOffline(highPriority)` (lines 90-98): when the socket is not
open, park the caller's resolver in `offlineSendQueue` — unshifted when
high priority, pushed otherwise. -/
def Shard.checkOfflineStep (s : Shard) (highPriority : Bool) (rid : Nat) : Shard :=
  if s.socketOpen then s
  else if highPriority then { s with offlineSendQueue := rid :: s.offlineSendQueue }
  else { s with offlineSendQueue := s.offlineSendQueue ++ [rid] }

/-- `resume()` (lines 209-256): close an open socket, fall back to
`identify()` without a session, else set `Resuming`, reconnect, send the
Resume payload with `seq = previousSequenceNumber ?? 0`, and register the
`RESUMED`/`INVALID_SESSION` resolvers. -/
def Shard.resumeStep (s : Shard) : Shard × List Action :=
  let r := s.closeSocketStep .ResumeClosingOldConnection
    "Reconnecting the shard, closing old connection."
  match r.1.sessionId with
  | none => (r.1, r.2 ++ [Action.callIdentify])
  | some sid =>
      let s1 := { r.1 with state := .Resuming }
      let s2 := { s1 with resolves := { s1.resolves with resumed := true, invalidSession := true } }
      (s2, r.2 ++ [Action.callConnect,
            Action.sendMessage
              (.resume ("Bot " ++ s1.token) sid (s1.previousSequenceNumber.getD 0)) true])

/-- `shutdown()` (lines 275-278): close with `Shutdown` and set the state
to `Offline` — nothing else is touched. -/
def Shard.shutdownStep (s : Shard) : Shard × List Action :=
  let r := s.closeSocketStep .Shutdown "Shard shutting down."
  ({ r.1 with state := .Offline }, r.2)

/-- Modelled from the spec: `GatewayIntents.GuildMembers` is declared in
`@discordeno/types`, which is not under `src/`; the spec names the intent
(§4.7) and the Discord gateway reference it cites assigns it bit 1. -/
def GuildMembersIntentBit : Nat := 2

/-- Options for `requestMembers` (`Omit<RequestGuildMembers, 'guildId'>`);
`userIds = none` models an absent `userIds` field. -/
structure RequestMembersOptions where
  limit : Option Nat := none
  query : Option String := none
  presences : Option Bool := none
  userIds : Option (List String) := none
  deriving DecidableEq, Repr

/-- JS-truthy view of `options?.limit` (absent and `0` are both falsy). -/
def optLimit (o : Option RequestMembersOptions) : Nat :=
  ((o.bind fun x => x.limit).getD 0)

/-- `requestMembers(guildId, options)` (lines 667-716).  Result: an error
message when the intent precondition fails, the updated shard, and the
emitted actions.  `now` models `Date.now()` for the nonce. -/
def Shard.requestMembersStep (s : Shard) (guildId : String)
    (opts : Option RequestMembersOptions) (now : Nat) :
    Option String × Shard × List Action :=
  if s.intents ≠ 0 ∧ (optLimit opts = 0 ∨ 1 < optLimit opts)
      ∧ Nat.land s.intents GuildMembersIntentBit = 0 then
    (some "MISSING_INTENT_GUILD_MEMBERS", s, [])
  else
    let opts1 := match opts with
      | some o => some (if (o.userIds.getD []).length ≠ 0
                        then { o with limit := some (o.userIds.getD []).length } else o)
      | none => none
    let nonce := guildId ++ "-" ++ toString now
    let lim := optLimit opts1
    let query := match opts1.bind fun o => o.query with
      | some q => some q
      | none => if lim ≠ 0 then none else some ""
    let payload := OutPayload.requestGuildMembers guildId query lim
      ((opts1.bind fun o => o.presences).getD false) (opts1.bind fun o => o.userIds) nonce
    if !s.requestMembersCacheEnabled then
      (none, s, [Action.sendMessage payload false])
    else
      (none, { s with pendingMemberNonces := s.pendingMemberNonces ++ [nonce] },
       [Action.sendMessage payload false])

/-- Signals a WebSocket can deliver to the handlers `connect()` installs. -/
inductive SocketSignal
  | opened
  | messageArrived
  | closedSig (code : CloseCode)
  | errored
  deriving DecidableEq, Repr

/-- What a handler installed by `connect()` may do, as seen by the promise
`connect()` returns. -/
inductive ConnEffect
  | logged
  | ranHandleClose
  | ranHandleMessage
  | setStateUnidentified
  | emittedConnected
  | resolvedConnectPromise
  | rejectedConnectPromise
  deriving DecidableEq, Repr

/-- The handler wiring of `connect()` (lines 131-147): `onerror` logs,
`onclose` runs `handleClose`, `onmessage` runs `handleMessage`, and only
`onopen` resolves the returned promise (after the guarded state update and
the `connected` event). -/
def connectHandlerEffects (st : ShardState) : SocketSignal → List ConnEffect
  | .errored => [.logged]
  | .closedSig _ => [.ranHandleClose]
  | .messageArrived => [.ranHandleMessage]
  | .opened =>
      (if st ≠ .Identifying ∧ st ≠ .Resuming then [ConnEffect.setStateUnidentified] else [])
        ++ [.emittedConnected, .resolvedConnectPromise]

/-- Recognises the offline-queue drain invocations among emitted actions. -/
def isOfflineInvoke : Action → Bool
  | .invokeOfflineResolver _ => true
  | _ => false

/-- The first-heartbeat delay as the spec's words state it (§4.3 step 3):
`ceil(interval × max(random(), 0.5))`.  Stated only to be compared with
`jitterDelay`, which is translated from the source. -/
def jitterDelaySpecWords (interval : Nat) (r : ℚ) : ℤ :=
  ⌈(interval : ℚ) * max r ((1 : ℚ) / 2)⌉

/-! ## Theorems -/

/-! ### Shared projection lemmas about the packet handler -/

@[simp] lemma packetPrelude_seq (s : Shard) (now : Nat) :
    (s.packetPrelude now).previousSequenceNumber = s.previousSequenceNumber := rfl

@[simp] lemma packetPrelude_open (s : Shard) (now : Nat) :
    (s.packetPrelude now).socketOpen = s.socketOpen := rfl

@[simp] lemma packetPrelude_queue (s : Shard) (now : Nat) :
    (s.packetPrelude now).offlineSendQueue = s.offlineSendQueue := rfl

@[simp] lemma packetPrelude_resolves (s : Shard) (now : Nat) :
    (s.packetPrelude now).resolves = s.resolves := rfl

@[simp] lemma packetPrelude_ack (s : Shard) (now : Nat) :
    (s.packetPrelude now).heart.acknowledged = true := rfl

@[simp] lemma startHeartbeating_seq (s : Shard) (r : ℚ) (i : Nat) :
    (s.startHeartbeating r i).previousSequenceNumber = s.previousSequenceNumber := by
  simp only [Shard.startHeartbeating]; split_ifs <;> rfl

@[simp] lemma startHeartbeating_queue (s : Shard) (r : ℚ) (i : Nat) :
    (s.startHeartbeating r i).offlineSendQueue = s.offlineSendQueue := by
  simp only [Shard.startHeartbeating]; split_ifs <;> rfl

@[simp] lemma startHeartbeating_resolves (s : Shard) (r : ℚ) (i : Nat) :
    (s.startHeartbeating r i).resolves = s.resolves := by
  simp only [Shard.startHeartbeating]; split_ifs <;> rfl

@[simp] lemma startHeartbeating_ack (s : Shard) (r : ℚ) (i : Nat) :
    (s.startHeartbeating r i).heart.acknowledged = s.heart.acknowledged := by
  simp only [Shard.startHeartbeating]; split_ifs <;> rfl

@[simp] lemma startHeartbeating_open (s : Shard) (r : ℚ) (i : Nat) :
    (s.startHeartbeating r i).socketOpen = s.socketOpen := by
  simp only [Shard.startHeartbeating]; split_ifs <;> rfl

@[simp] lemma dispatchTail_heart (s : Shard) (p : GatewayPayload) (acts : List Action) :
    (s.dispatchTail p acts).1.heart = s.heart := by
  simp only [Shard.dispatchTail]; split_ifs <;> rfl

@[simp] lemma dispatchTail_queue (s : Shard) (p : GatewayPayload) (acts : List Action) :
    (s.dispatchTail p acts).1.offlineSendQueue = s.offlineSendQueue := by
  simp only [Shard.dispatchTail]; split_ifs <;> rfl

@[simp] lemma dispatchTail_open (s : Shard) (p : GatewayPayload) (acts : List Action) :
    (s.dispatchTail p acts).1.socketOpen = s.socketOpen := by
  simp only [Shard.dispatchTail]; split_ifs <;> rfl

lemma dispatchTail_seq (s : Shard) (p : GatewayPayload) (acts : List Action) :
    (s.dispatchTail p acts).1.previousSequenceNumber =
      if p.s ≠ none then p.s else s.previousSequenceNumber := by
  simp only [Shard.dispatchTail]; split_ifs <;> rfl

@[simp] lemma filter_map_invoke (q : List Nat) :
    (q.map Action.invokeOfflineResolver).filter isOfflineInvoke =
      q.map Action.invokeOfflineResolver := by
  induction q with
  | nil => rfl
  | cons a t ih => simp [List.filter, isOfflineInvoke, ih]

lemma dispatchTail_invokes (s : Shard) (p : GatewayPayload) (acts : List Action)
    (hacts : acts.filter isOfflineInvoke = []) :
    (s.dispatchTail p acts).2.filter isOfflineInvoke =
      (if p.t = some "RESUMED" ∨ p.t = some "READY"
       then s.offlineSendQueue.map Action.invokeOfflineResolver else []) := by
  simp only [Shard.dispatchTail]
  split_ifs with h1 h2 <;>
    simp_all [List.filter_append, isOfflineInvoke]

@[simp] lemma closeSocketStep_shard (s : Shard) (c : CloseCode) (reason : String) :
    (s.closeSocketStep c reason).1 = s := by
  simp only [Shard.closeSocketStep]; split_ifs <;> rfl

lemma handleDiscordPacket_queue (s : Shard) (now : Nat) (r : ℚ) (p : GatewayPayload) :
    (s.handleDiscordPacket now r p).1.offlineSendQueue = s.offlineSendQueue := by
  unfold Shard.handleDiscordPacket
  cases p.op <;> simp <;> split_ifs <;> simp

lemma handleDiscordPacket_drains (s : Shard) (now : Nat) (r : ℚ) (p : GatewayPayload)
    (ht : p.t = some "READY" ∨ p.t = some "RESUMED")
    (hnot : ¬(p.op = .Heartbeat ∧ s.socketOpen = false)) :
    (s.handleDiscordPacket now r p).2.filter isOfflineInvoke =
      s.offlineSendQueue.map Action.invokeOfflineResolver := by
  unfold Shard.handleDiscordPacket
  have ht' : (p.t = some "RESUMED" ∨ p.t = some "READY") := ht.symm
  cases hop : p.op <;>
    simp_all [dispatchTail_invokes, List.filter_append, isOfflineInvoke] <;>
    split_ifs <;>
    simp_all [dispatchTail_invokes, List.filter_append, isOfflineInvoke]

/-- Claim C1 counterexample: a fatal close (`AuthenticationFailed`) on a
shard whose in-flight `identify()` is pending on the `READY` and
`INVALID_SESSION` resolvers does set the state to `Offline` and throw, but
leaves both resolvers pending and untouched: the throw escapes into the
`onclose` callback's promise, which nobody awaits, so the in-flight
`identify()`/`resume()` is never failed — it pends forever, refuting the
claim's conclusion that the fatal error fails the in-flight operation. -/
theorem fatal_close_leaves_identify_pending :
    let s : Shard := { socketOpen := true, state := .Identifying,
                       resolves := { ready := true, invalidSession := true } }
    (s.handleClose .AuthenticationFailed "Authentication failed.").shard.state = .Offline ∧
    (s.handleClose .AuthenticationFailed "Authentication failed.").outcome =
      .threw "Authentication failed." ∧
    (s.handleClose .AuthenticationFailed "Authentication failed.").shard.resolves.ready
      = true ∧
    (s.handleClose .AuthenticationFailed
      "Authentication failed.").shard.resolves.invalidSession = true := by
  decide

/-- Claim C1 (amended): for every close event handled by `handleClose`, the
re-identify codes (`UnknownOpcode`, `NotAuthenticated`, `InvalidSeq`,
`RateLimited`, `SessionTimedOut`) set the state to `Identifying` and invoke
`identify()`; the fatal codes (`AuthenticationFailed`, `InvalidShard`,
`ShardingRequired`, `InvalidApiVersion`, `InvalidIntents`,
`DisallowedIntents`) set the state to `Offline` and make the handler itself
throw — but that throw does not fail the in-flight `identify()`/`resume()`:
the pending resolvers are left untouched, so the in-flight operation
remains pending; every other code outside the graceful/testing set sets
the state to `Resuming` and invokes `resume()`. -/
theorem handleClose_classification (s : Shard) (reason : String) (c : CloseCode) :
    ((c = .UnknownOpcode ∨ c = .NotAuthenticated ∨ c = .InvalidSeq ∨
      c = .RateLimited ∨ c = .SessionTimedOut) →
      (s.handleClose c reason).shard.state = .Identifying ∧
      (s.handleClose c reason).outcome = .identify) ∧
    ((c = .AuthenticationFailed ∨ c = .InvalidShard ∨ c = .ShardingRequired ∨
      c = .InvalidApiVersion ∨ c = .InvalidIntents ∨ c = .DisallowedIntents) →
      (s.handleClose c reason).shard.state = .Offline ∧
      (∃ msg, (s.handleClose c reason).outcome = .threw msg) ∧
      (s.handleClose c reason).shard.resolves = s.resolves) ∧
    ((c ≠ .TestingFinished ∧ c ≠ .Shutdown ∧ c ≠ .ReIdentifying ∧
      c ≠ .Resharded ∧ c ≠ .ResumeClosingOldConnection ∧ c ≠ .ZombiedConnection ∧
      c ≠ .UnknownOpcode ∧ c ≠ .NotAuthenticated ∧ c ≠ .InvalidSeq ∧
      c ≠ .RateLimited ∧ c ≠ .SessionTimedOut ∧
      c ≠ .AuthenticationFailed ∧ c ≠ .InvalidShard ∧ c ≠ .ShardingRequired ∧
      c ≠ .InvalidApiVersion ∧ c ≠ .InvalidIntents ∧ c ≠ .DisallowedIntents) →
      (s.handleClose c reason).shard.state = .Resuming ∧
      (s.handleClose c reason).outcome = .resume) := by
  cases c <;> simp [Shard.handleClose, Shard.stopHeartbeating]

/-- Claim C1 witness: concrete instance of each classification branch,
with a pending `READY` resolver surviving the fatal branch untouched. -/
theorem handleClose_classification_witness :
    ((Shard.handleClose {} .UnknownOpcode "r").shard.state = .Identifying ∧
      (Shard.handleClose {} .UnknownOpcode "r").outcome = .identify) ∧
    ((Shard.handleClose { resolves := { ready := true } } .DisallowedIntents
        "r").shard.state = .Offline ∧
      (∃ msg, (Shard.handleClose { resolves := { ready := true } } .DisallowedIntents
        "r").outcome = .threw msg) ∧
      (Shard.handleClose { resolves := { ready := true } } .DisallowedIntents
        "r").shard.resolves = { ready := true }) ∧
    ((Shard.handleClose {} .UnknownError "r").shard.state = .Resuming ∧
      (Shard.handleClose {} .UnknownError "r").outcome = .resume) :=
  ⟨(handleClose_classification {} "r" .UnknownOpcode).1 (by simp),
   (handleClose_classification { resolves := { ready := true } } "r"
      .DisallowedIntents).2.1 (by simp),
   (handleClose_classification {} "r" .UnknownError).2.2 (by simp)⟩

/-- Claim C6 (code bug evidence): calling `shutdown()` on a shard with a
parked offline-queue waiter, a pending `READY` resolver, and a bucket
waiter leaves all three pending — and so does the subsequent `handleClose`
for the `Shutdown` close code.  No cancellation action is ever emitted, so
the waiters hang forever, contradicting the spec's requirement that they
be woken with a cancellation outcome. -/
theorem shutdown_leaves_waiters_pending :
    let s : Shard := { socketOpen := true, offlineSendQueue := [7],
                       resolves := { ready := true }, bucketWaiting := [3] }
    let r := s.shutdownStep
    r.1.offlineSendQueue = [7] ∧ r.1.resolves.ready = true ∧
    r.1.bucketWaiting = [3] ∧ r.1.state = .Offline ∧
    r.2 = [Action.closeSocket .Shutdown "Shard shutting down."] ∧
    (r.1.handleClose .Shutdown "").shard.offlineSendQueue = [7] ∧
    (r.1.handleClose .Shutdown "").shard.resolves.ready = true ∧
    (r.1.handleClose .Shutdown "").shard.bucketWaiting = [3] := by
  decide

/-- Claim C7 counterexample: a close with code `TestingFinished` does
invoke the `disconnected` event callback, refuting the claim that it is
not invoked on that code. -/
theorem testingFinished_emits_disconnected :
    (Shard.handleClose {} .TestingFinished "").disconnectedEmitted = true := by
  decide

/-- Claim C7 (amended): the `disconnected` event callback is invoked on
every close event, including the `TestingFinished` graceful-testing
class. -/
theorem disconnected_always_emitted (s : Shard) (c : CloseCode) (reason : String) :
    (s.handleClose c reason).disconnectedEmitted = true := by
  cases c <;> simp [Shard.handleClose]

/-- Claim C2 counterexample: a shard that has just transmitted a heartbeat
(`lastBeat` set, `acknowledged = false`) receives a `Dispatch` packet —
not a `HeartbeatAck` — and `handleDiscordPacket` sets `acknowledged` back
to `true`, refuting the claim that only `HeartbeatAck` does so. -/
theorem dispatch_packet_sets_acknowledged :
    let s : Shard := { socketOpen := true,
                       heart := { acknowledged := false, lastBeat := some 50 } }
    let p : GatewayPayload := { op := .Dispatch }
    p.op ≠ .HeartbeatACK ∧
    (s.handleDiscordPacket 60 0 p).1.heart.acknowledged = true := by
  decide

/-- Claim C2 (amended): `heart.acknowledged` goes `false` when a heartbeat
is transmitted (both the jittered first beat and each steady tick), and is
set back to `true` by the next incoming gateway packet of any kind —
`handleDiscordPacket` marks it acknowledged in its prelude on every
packet, not only on `HeartbeatAck`. -/
theorem heartbeat_acknowledged_cycle (s : Shard) (now : Nat) :
    (s.socketOpen = true → (s.jitterTimerFire now).1.heart.acknowledged = false) ∧
    (s.socketOpen = true → s.heart.acknowledged = true →
      (s.steadyHeartbeatTick now).1.heart.acknowledged = false) ∧
    (∀ (r : ℚ) (p : GatewayPayload),
      (s.handleDiscordPacket now r p).1.heart.acknowledged = true) := by
  refine ⟨?_, ?_, ?_⟩
  · intro h
    simp [Shard.jitterTimerFire, h]
  · intro h ha
    simp [Shard.steadyHeartbeatTick, h, ha]
  · intro r p
    unfold Shard.handleDiscordPacket
    cases p.op <;> simp <;> split_ifs <;> simp

/-- Claim C2 witness: the amended cycle at concrete states. -/
theorem heartbeat_acknowledged_cycle_witness :
    (Shard.jitterTimerFire { socketOpen := true } 5).1.heart.acknowledged = false ∧
    (Shard.steadyHeartbeatTick { socketOpen := true, heart := { acknowledged := true } }
      5).1.heart.acknowledged = false ∧
    (Shard.handleDiscordPacket { socketOpen := true } 5 0
      { op := .Dispatch }).1.heart.acknowledged = true :=
  ⟨(heartbeat_acknowledged_cycle { socketOpen := true } 5).1 rfl,
   (heartbeat_acknowledged_cycle
      { socketOpen := true, heart := { acknowledged := true } } 5).2.1 rfl rfl,
   (heartbeat_acknowledged_cycle { socketOpen := true } 5).2.2 0 { op := .Dispatch }⟩

/-- Claim C3 counterexample: an `op = Heartbeat` packet with `s = 5`
arriving while the socket is not open hits the early `return` (line 356),
so `previousSequenceNumber` is not updated even though `s != null`. -/
theorem heartbeat_early_return_keeps_seq :
    let sh : Shard := { socketOpen := false }
    let p : GatewayPayload := { op := .Heartbeat, s := some 5 }
    p.s = some 5 ∧
    (sh.handleDiscordPacket 10 0 p).1.previousSequenceNumber = none ∧
    (sh.handleDiscordPacket 10 0 p).1.previousSequenceNumber ≠ p.s := by
  decide

/-- Claim C3 (amended): for every incoming packet except an `op = Heartbeat`
packet arriving while the socket is not open (which returns early),
`handleDiscordPacket` leaves `previousSequenceNumber` equal to `packet.s`
when `s != null` (including `s = 0`) and unchanged when `s = null`; the
early-return case always leaves it unchanged. -/
theorem seq_update_rule (s : Shard) (now : Nat) (r : ℚ) (p : GatewayPayload) :
    (¬ (p.op = .Heartbeat ∧ s.socketOpen = false) →
      (s.handleDiscordPacket now r p).1.previousSequenceNumber =
        if p.s ≠ none then p.s else s.previousSequenceNumber) ∧
    (p.op = .Heartbeat ∧ s.socketOpen = false →
      (s.handleDiscordPacket now r p).1.previousSequenceNumber =
        s.previousSequenceNumber) := by
  unfold Shard.handleDiscordPacket
  cases hop : p.op <;> simp [dispatchTail_seq] <;> split_ifs <;>
    simp_all [dispatchTail_seq]

/-- Claim C3 witness: a `Dispatch` packet with `s = 0` updates the counter
to `0`, and one with `s = null` leaves it at its previous value. -/
theorem seq_update_rule_witness :
    (Shard.handleDiscordPacket { socketOpen := true, previousSequenceNumber := some 9 }
      1 0 { op := .Dispatch, s := some 0 }).1.previousSequenceNumber = some 0 ∧
    (Shard.handleDiscordPacket { socketOpen := true, previousSequenceNumber := some 9 }
      1 0 { op := .Dispatch }).1.previousSequenceNumber = some 9 :=
  ⟨by simpa using
      (seq_update_rule { socketOpen := true, previousSequenceNumber := some 9 } 1 0
        { op := .Dispatch, s := some 0 }).1 (by simp),
   by simpa using
      (seq_update_rule { socketOpen := true, previousSequenceNumber := some 9 } 1 0
        { op := .Dispatch }).1 (by simp)⟩

/-- Claim C4: `resume()` with a stored `sessionId` sets state `Resuming`,
connects, and sends exactly one Resume payload whose `session_id` is the
stored id and whose `seq` is the last observed sequence number (`0` when
none); without a `sessionId` it calls `identify()` and sends no Resume
payload. -/
theorem resume_behavior (s : Shard) :
    (∀ sid, s.sessionId = some sid →
      (s.resumeStep.1.state = .Resuming ∧
       s.resumeStep.2 =
         (if s.socketOpen then
            [Action.closeSocket .ResumeClosingOldConnection
              "Reconnecting the shard, closing old connection."]
          else []) ++
         [Action.callConnect,
          Action.sendMessage
            (.resume ("Bot " ++ s.token) sid (s.previousSequenceNumber.getD 0)) true])) ∧
    (s.sessionId = none →
      (Action.callIdentify ∈ s.resumeStep.2 ∧
       ∀ a ∈ s.resumeStep.2, ∀ tok sid2 q hp, a ≠ Action.sendMessage (.resume tok sid2 q) hp)) := by
  constructor
  · intro sid hsid
    simp only [Shard.resumeStep, closeSocketStep_shard, hsid]
    constructor
    · trivial
    · simp only [Shard.closeSocketStep]
      split_ifs with h <;> simp [h]
  · intro hnone
    simp only [Shard.resumeStep, closeSocketStep_shard, hnone]
    simp only [Shard.closeSocketStep]
    split_ifs with h <;> simp

/-- Claim C4 witness: a shard with `sessionId = "S"`, sequence `42` sends
`Resume` with `seq = 42`; one with no session and sequence `42` calls
`identify()` and never sends a Resume payload. -/
theorem resume_behavior_witness :
    ((Shard.resumeStep { sessionId := some "S", token := "T", previousSequenceNumber := some 42 }).1.state = .Resuming ∧
     (Shard.resumeStep { sessionId := some "S", token := "T", previousSequenceNumber := some 42 }).2 =
       [Action.callConnect, Action.sendMessage (.resume "Bot T" "S" 42) true]) ∧
    (Action.callIdentify ∈ (Shard.resumeStep { previousSequenceNumber := some 42 }).2 ∧
     ∀ a ∈ (Shard.resumeStep { previousSequenceNumber := some 42 }).2,
       ∀ tok sid2 q hp, a ≠ Action.sendMessage (.resume tok sid2 q) hp) :=
  ⟨by simpa using
      (resume_behavior { sessionId := some "S", token := "T", previousSequenceNumber := some 42 }).1 "S" rfl,
   (resume_behavior { previousSequenceNumber := some 42 }).2 rfl⟩

/-- Claim C5 counterexample: at `interval = 45000` and random sample
`r = 3/10`, the code's delay `ceil(interval × (r || 0.5)) = 13500` differs
from the spec formula `ceil(interval × max(r, 0.5)) = 22500` and lies
below the claimed lower bound `ceil(interval × 0.5)`. -/
theorem jitter_formula_counterexample :
    jitterDelay 45000 (3/10) ≠ jitterDelaySpecWords 45000 (3/10) ∧
    jitterDelay 45000 (3/10) < ⌈(45000 : ℚ) * ((1:ℚ)/2)⌉ := by
  norm_num [jitterDelay, jitterDelaySpecWords]

/-- Claim C5 (amended): the first-heartbeat delay is
`ceil(interval × r)` for a nonzero sample `r` and `ceil(interval × 0.5)`
when `r = 0`; hence for `r ∈ [0, 1)` and a positive interval every sample
lies in `[1, interval]` — not in `[ceil(interval × 0.5), interval]`. -/
theorem jitter_bounds (interval : Nat) (r : ℚ) (h1 : 1 ≤ interval)
    (h0 : 0 ≤ r) (hlt : r < 1) :
    1 ≤ jitterDelay interval r ∧ jitterDelay interval r ≤ (interval : ℤ) := by
  have hi : (1 : ℚ) ≤ (interval : ℚ) := by exact_mod_cast h1
  unfold jitterDelay
  split_ifs with hz
  · constructor
    · exact Int.ceil_pos.mpr (by nlinarith)
    · rw [Int.ceil_le]; push_cast; nlinarith
  · have hr : 0 < r := lt_of_le_of_ne h0 (Ne.symm hz)
    constructor
    · exact Int.ceil_pos.mpr (by nlinarith)
    · rw [Int.ceil_le]; push_cast; nlinarith

/-- Claim C5 witness: the bounds at `interval = 45000`, `r = 3/10`. -/
theorem jitter_bounds_witness :
    1 ≤ jitterDelay 45000 (3/10) ∧ jitterDelay 45000 (3/10) ≤ (45000 : ℤ) :=
  jitter_bounds 45000 (3/10) (by norm_num) (by norm_num) (by norm_num)

/-- Claim C8: `requestMembers` fails with `MISSING_INTENT_GUILD_MEMBERS`
exactly when the configured intents are non-zero, `options.limit` is
absent, zero, or greater than `1`, and the `GuildMembers` bit is clear in
the intents bitfield; on that failure no payload is transmitted. -/
theorem requestMembers_missing_intent (s : Shard) (g : String)
    (opts : Option RequestMembersOptions) (now : Nat) :
    ((s.requestMembersStep g opts now).1 = some "MISSING_INTENT_GUILD_MEMBERS" ↔
      (s.intents ≠ 0 ∧ (optLimit opts = 0 ∨ 1 < optLimit opts) ∧
        Nat.land s.intents GuildMembersIntentBit = 0)) ∧
    (∀ e, (s.requestMembersStep g opts now).1 = some e →
      (s.requestMembersStep g opts now).2.2 = []) := by
  unfold Shard.requestMembersStep
  split_ifs with h <;> simp_all

/-- Claim C8 witness: `intents = 1` (non-zero, `GuildMembers` bit clear)
with no options fails and transmits nothing; the same shard with
`limit = 1` does not fail. -/
theorem requestMembers_missing_intent_witness :
    (Shard.requestMembersStep { intents := 1 } "g" none 0).1 =
      some "MISSING_INTENT_GUILD_MEMBERS" ∧
    (Shard.requestMembersStep { intents := 1 } "g" none 0).2.2 = [] ∧
    (Shard.requestMembersStep { intents := 1 } "g"
      (some { limit := some 1 }) 0).1 = none :=
  ⟨(requestMembers_missing_intent { intents := 1 } "g" none 0).1.mpr
      ⟨by decide, Or.inl rfl, by decide⟩,
   (requestMembers_missing_intent { intents := 1 } "g" none 0).2 _
      ((requestMembers_missing_intent { intents := 1 } "g" none 0).1.mpr
        ⟨by decide, Or.inl rfl, by decide⟩),
   by have h := (requestMembers_missing_intent { intents := 1 } "g"
        (some { limit := some 1 }) 0).1
      revert h
      decide⟩

/-- Claim C9: draining the offline send queue on `READY` or `RESUMED`
invokes exactly the stored resolvers, in order, but removes none of them:
`handleDiscordPacket` never changes `offlineSendQueue`, `checkOffline`
only adds to it, and a second `READY`/`RESUMED` invokes every previously
drained resolver again. -/
theorem offline_queue_drain_frame (s : Shard) (now : Nat) (r : ℚ) (p : GatewayPayload) :
    (s.handleDiscordPacket now r p).1.offlineSendQueue = s.offlineSendQueue ∧
    ((p.t = some "READY" ∨ p.t = some "RESUMED") →
      ¬(p.op = .Heartbeat ∧ s.socketOpen = false) →
      (s.handleDiscordPacket now r p).2.filter isOfflineInvoke =
        s.offlineSendQueue.map Action.invokeOfflineResolver) ∧
    (∀ (hp : Bool) (rid : Nat),
      s.offlineSendQueue.length ≤ (s.checkOfflineStep hp rid).offlineSendQueue.length ∧
      ∀ x ∈ s.offlineSendQueue, x ∈ (s.checkOfflineStep hp rid).offlineSendQueue) ∧
    ((p.t = some "READY" ∨ p.t = some "RESUMED") →
      ¬(p.op = .Heartbeat ∧ s.socketOpen = false) →
      ∀ (now2 : Nat) (r2 : ℚ) (p2 : GatewayPayload),
        (p2.t = some "READY" ∨ p2.t = some "RESUMED") →
        ¬(p2.op = .Heartbeat ∧ (s.handleDiscordPacket now r p).1.socketOpen = false) →
        ((s.handleDiscordPacket now r p).1.handleDiscordPacket now2 r2 p2).2.filter
            isOfflineInvoke =
          s.offlineSendQueue.map Action.invokeOfflineResolver) := by
  refine ⟨handleDiscordPacket_queue s now r p,
          fun ht hnot => handleDiscordPacket_drains s now r p ht hnot,
          ?_, ?_⟩
  · intro hp rid
    unfold Shard.checkOfflineStep
    split_ifs <;> exact ⟨by simp, fun x hx => by simp [hx]⟩
  · intro ht hnot now2 r2 p2 ht2 hnot2
    rw [handleDiscordPacket_drains _ now2 r2 p2 ht2 hnot2,
        handleDiscordPacket_queue s now r p]

/-- Claim C9 witness: with queue `[1, 2]`, a `READY` drain invokes
resolvers `1` then `2`, and a second `READY` invokes them both again. -/
theorem offline_queue_drain_frame_witness :
    (Shard.handleDiscordPacket { socketOpen := true, offlineSendQueue := [1, 2] }
      0 0 { op := .Dispatch, t := some "READY", d := .ready "S" "u" }).1.offlineSendQueue
        = [1, 2] ∧
    (Shard.handleDiscordPacket { socketOpen := true, offlineSendQueue := [1, 2] }
      0 0 { op := .Dispatch, t := some "READY", d := .ready "S" "u" }).2.filter
        isOfflineInvoke =
      [Action.invokeOfflineResolver 1, Action.invokeOfflineResolver 2] ∧
    ((Shard.handleDiscordPacket { socketOpen := true, offlineSendQueue := [1, 2] }
      0 0 { op := .Dispatch, t := some "READY", d := .ready "S" "u" }).1.handleDiscordPacket
        1 0 { op := .Dispatch, t := some "READY", d := .ready "S" "u" }).2.filter
        isOfflineInvoke =
      [Action.invokeOfflineResolver 1, Action.invokeOfflineResolver 2] :=
  ⟨(offline_queue_drain_frame { socketOpen := true, offlineSendQueue := [1, 2] } 0 0
      { op := .Dispatch, t := some "READY", d := .ready "S" "u" }).1,
   by simpa using
     (offline_queue_drain_frame { socketOpen := true, offlineSendQueue := [1, 2] } 0 0
       { op := .Dispatch, t := some "READY", d := .ready "S" "u" }).2.1
       (Or.inl rfl) (by simp),
   by simpa using
     (offline_queue_drain_frame { socketOpen := true, offlineSendQueue := [1, 2] } 0 0
       { op := .Dispatch, t := some "READY", d := .ready "S" "u" }).2.2.2
       (Or.inl rfl) (by simp) 1 0
       { op := .Dispatch, t := some "READY", d := .ready "S" "u" }
       (Or.inl rfl) (by simp)⟩

/-- Claim C10: the promise returned by `connect()` is resolved only by the
socket's open signal, and none of the installed handlers can reject it —
an error or close before `open` leaves `connect()` (and any `identify()`
or `resume()` awaiting it) pending. -/
theorem connect_resolution (st : ShardState) (sig : SocketSignal) :
    (ConnEffect.resolvedConnectPromise ∈ connectHandlerEffects st sig ↔ sig = .opened) ∧
    ConnEffect.rejectedConnectPromise ∉ connectHandlerEffects st sig := by
  cases sig <;> simp [connectHandlerEffects]

/-- Claim C10 witness: from state `Connecting`, only the open signal
resolves the promise; a close or error before open neither resolves nor
rejects it. -/
theorem connect_resolution_witness :
    (ConnEffect.resolvedConnectPromise ∈
        connectHandlerEffects .Connecting .opened) ∧
    (ConnEffect.resolvedConnectPromise ∉
        connectHandlerEffects .Connecting (.closedSig .UnknownError)) ∧
    (ConnEffect.rejectedConnectPromise ∉
        connectHandlerEffects .Connecting .errored) :=
  ⟨(connect_resolution .Connecting .opened).1.mpr rfl,
   fun h => by
      have := (connect_resolution .Connecting (.closedSig .UnknownError)).1.mp h
      exact absurd this (by simp),
   (connect_resolution .Connecting .errored).2⟩

end Discordeno
